import Mathlib

/-!
Verification development for the LightRAGCoder code-ingestion pipeline
(`repo_graphrag/processors/code_processor.py`, `repo_graphrag/llm/openai_embedding.py`,
`repo_graphrag/initialization/initializer.py`).

The Python source is shallowly embedded: pure computations become Lean
functions; the asyncio task topology of `code_to_storage` is embedded as an
explicit sequential schedule (a single processing worker draining the work
queue, then the single storage worker draining the storage queue) which is a
valid schedule of the event loop; external collaborators (tree-sitter parser,
chunk selector, graph extractor, the LightRAG storage backend, the remote
embedding provider, the hash function `compute_mdhash_id`) are abstracted as
function parameters, and their invocations are recorded in explicit traces.
Python `bytes` are `List Nat`, Python exceptions are `Except`/`Bool` error
flags, the `None` queue sentinels are `Option.none`.
-/

namespace LightRAGCoder

/-- A syntax-tree node as seen by this core: tree-sitter node objects expose a
byte-range start/end (`start_byte`, `end_byte`). -/
structure Node where
  start_byte : Nat
  end_byte : Nat
deriving DecidableEq

/-- A chunk dictionary as built in `process_file`:
`{"content": node_text, "source_id": source_id, "file_path": code_path}`. -/
structure Chunk where
  content : String
  source_id : String
  file_path : String
deriving DecidableEq

/-- Modelled from the spec: an Entity record
`{name, type, description/attributes, sourceId, filePath, parentDefinitionName}`
(the extractor module `code_grapher.py` that constructs these records is not
under `src/`; its output type is reconstructed from the spec's data model). -/
structure Entity where
  entity_name : String
  entity_type : String
  description : String
  source_id : String
  file_path : String
  parent_definition_name : String
deriving DecidableEq

/-- Modelled from the spec: a Relationship record
`{from, to, kind, sourceId, filePath}` (the extractor module `code_grapher.py`
is not under `src/`; `from`/`to` are rendered `src`/`tgt` since `from` is a
Lean keyword). -/
structure Relationship where
  src : String
  tgt : String
  kind : String
  source_id : String
  file_path : String
deriving DecidableEq

/-- The per-file result dictionary returned by `process_file`. -/
structure FileResult where
  file_path : String
  file_content : String
  chunks : List Chunk
  entities : List Entity
  relationships : List Relationship
deriving DecidableEq

/-- Errors that `process_file` can raise.  The only failure embedded here is
the strict UTF-8 decode error of `file_content_bytes.decode('utf-8')`. -/
inductive ProcError
  | decodeError
deriving DecidableEq

deriving instance DecidableEq for Except

/-- Strict UTF-8 decoding of a byte sequence into Unicode code points,
mirroring Python's `bytes.decode('utf-8')`: rejects bad leading bytes, bad
continuation bytes, overlong encodings, surrogate code points and values
above U+10FFFF.  Returns `none` exactly when Python raises
`UnicodeDecodeError`. -/
def utf8Cps : List Nat → Option (List Nat)
  | [] => some []
  | b1 :: rest =>
    if b1 < 0x80 then (utf8Cps rest).map (fun cs => b1 :: cs)
    else if 0xC2 ≤ b1 ∧ b1 ≤ 0xDF then
      match rest with
      | b2 :: rest2 =>
        if 0x80 ≤ b2 ∧ b2 ≤ 0xBF then
          (utf8Cps rest2).map (fun cs => ((b1 - 0xC0) * 0x40 + (b2 - 0x80)) :: cs)
        else none
      | [] => none
    else if 0xE0 ≤ b1 ∧ b1 ≤ 0xEF then
      match rest with
      | b2 :: b3 :: rest3 =>
        if (0x80 ≤ b2 ∧ b2 ≤ 0xBF) ∧ (b1 ≠ 0xE0 ∨ 0xA0 ≤ b2) ∧ (b1 ≠ 0xED ∨ b2 ≤ 0x9F) ∧
            (0x80 ≤ b3 ∧ b3 ≤ 0xBF) then
          (utf8Cps rest3).map
            (fun cs => ((b1 - 0xE0) * 0x1000 + (b2 - 0x80) * 0x40 + (b3 - 0x80)) :: cs)
        else none
      | _ => none
    else if 0xF0 ≤ b1 ∧ b1 ≤ 0xF4 then
      match rest with
      | b2 :: b3 :: b4 :: rest4 =>
        if (0x80 ≤ b2 ∧ b2 ≤ 0xBF) ∧ (b1 ≠ 0xF0 ∨ 0x90 ≤ b2) ∧ (b1 ≠ 0xF4 ∨ b2 ≤ 0x8F) ∧
            (0x80 ≤ b3 ∧ b3 ≤ 0xBF) ∧ (0x80 ≤ b4 ∧ b4 ≤ 0xBF) then
          (utf8Cps rest4).map
            (fun cs =>
              ((b1 - 0xF0) * 0x40000 + (b2 - 0x80) * 0x1000 + (b3 - 0x80) * 0x40 +
                (b4 - 0x80)) :: cs)
        else none
      | _ => none
    else none

/-- `bytes.decode('utf-8')` as a `String`-valued partial function. -/
def utf8Decode (bytes : List Nat) : Option String :=
  (utf8Cps bytes).map (fun cs => String.mk (cs.map Char.ofNat))

/-- `os.path.basename`: the component after the last path separator. -/
def basename (p : String) : String :=
  String.mk (p.data.foldl (fun acc c => if c = '/' then [] else acc ++ [c]) [])

/-- Modelled from the spec: the Line-Index Builder (`build_line_offset_list`
in `utils/node_line_range.py`, not under `src/`): "ordered list of byte
offsets, one per line start (offset 0 for line 1, then one entry after each
newline byte)". -/
def build_line_offset_list (bytes : List Nat) : List Nat :=
  0 :: ((bytes.enum.filter (fun p => p.2 = 10)).map (fun p => p.1 + 1))

/-- Modelled from the spec: offset→line translation over the line index: the
1-based line holding byte offset `o` is the number of line starts at or
before `o`. -/
def lineOfOffset (offsets : List Nat) (o : Nat) : Nat :=
  (offsets.filter (fun s => s ≤ o)).length

/-- Modelled from the spec: `get_node_line_range` (`utils/node_line_range.py`,
not under `src/`) translates a node's byte range into a 1-based `[start,end]`
line range via the line-offset index; `end_byte` is tree-sitter's exclusive
end, so the last byte of the node is `end_byte - 1`. -/
def get_node_line_range (node : Node) (offsets : List Nat) : Nat × Nat :=
  (lineOfOffset offsets node.start_byte, lineOfOffset offsets (node.end_byte - 1))

/-- The per-chunk body of the `for node, node_text in chunk_node_list` loop of
`process_file`: computes the line range and `source_id`, appends the chunk
dict, runs `create_code_graph` (abstracted as `grapher`, closed over the
definition table, file bytes, empty parent name and file path) and
accumulates entities and relationships in loop order. -/
def processChunks (grapher : Node → String → List Entity × List Relationship)
    (file_name code_path : String) (offsets : List Nat) :
    List (Node × String) → List Chunk × List Entity × List Relationship
  | [] => ([], [], [])
  | (node, node_text) :: rest =>
    let lr := get_node_line_range node offsets
    let source_id :=
      "file:" ++ file_name ++ "_line:" ++ toString lr.1 ++ "-" ++ toString lr.2
    let ch : Chunk := { content := node_text, source_id := source_id, file_path := code_path }
    let ers := grapher node source_id
    let tail := processChunks grapher file_name code_path offsets rest
    (ch :: tail.1, ers.1 ++ tail.2.1, ers.2 ++ tail.2.2)

/-- `process_file(code_path, file_content_bytes)`.  The tree-sitter parse and
`create_code_chunks` (module `code_chunker.py`, not under `src/`) are
abstracted as `chunker`, mapping the file bytes to the selected
`(node, node_text)` list; `create_code_graph` is abstracted as `grapher`.
The UTF-8 decode of the file body is embedded directly and its failure is
propagated, exactly as in the source where no handler surrounds
`file_content_bytes.decode('utf-8')`. -/
def process_file (chunker : List Nat → List (Node × String))
    (grapher : Node → String → List Entity × List Relationship)
    (code_path : String) (file_content_bytes : List Nat) : Except ProcError FileResult :=
  let file_name := basename code_path
  match utf8Decode file_content_bytes with
  | none => .error .decodeError
  | some file_content_text =>
    let line_offset_list := build_line_offset_list file_content_bytes
    let chunk_node_list := chunker file_content_bytes
    let acc := processChunks grapher file_name code_path line_offset_list chunk_node_list
    .ok { file_path := code_path
          file_content := file_content_text
          chunks := acc.1
          entities := acc.2.1
          relationships := acc.2.2 }

/-- One invocation of the LightRAG storage backend made by
`store_file_result`: the custom-KG ingest (`rag.ainsert_custom_kg`), the
per-document status upsert (`rag.doc_status.upsert`) and the full-document
upsert (`rag.full_docs.upsert`).  The wall-clock `created_at`/`updated_at`
fields and the constant `metadata` dict of the status record are not
content-bearing and are omitted from the trace. -/
inductive StorageOp
  | ingest (chunks : List Chunk) (entities : List Entity)
      (relationships : List Relationship) (full_doc_id : String)
  | upsertStatus (doc_id : String) (chunks_count : Nat) (content : String)
      (content_summary : String) (content_length : Nat) (file_path : String)
      (chunks_list : List String)
  | upsertFullDoc (doc_id : String) (content : String)
deriving DecidableEq

/-- `store_file_result(rag, result)`.  The backend calls are recorded as a
`StorageOp` trace; `fails op = true` models the corresponding `await` raising.
Returns the trace of calls issued (the failing call included, since it was
invoked) and whether an exception propagated to the caller (the `raise` at
the end of the handler).  `compute_mdhash_id content pre` abstracts
`lightrag.utils.compute_mdhash_id(content, prefix=pre)`. -/
def store_file_result (fails : StorageOp → Bool)
    (compute_mdhash_id : String → String → String) (result : FileResult) :
    List StorageOp × Bool :=
  if result.chunks ≠ [] ∨ result.entities ≠ [] ∨ result.relationships ≠ [] then
    let doc_id := compute_mdhash_id result.file_content "doc-"
    let op1 := StorageOp.ingest result.chunks result.entities result.relationships doc_id
    if fails op1 then ([op1], true)
    else if result.chunks ≠ [] then
      let chunk_ids := result.chunks.map (fun c => compute_mdhash_id c.content "chunk-")
      let op2 := StorageOp.upsertStatus doc_id result.chunks.length result.file_content
        ("Code file: " ++ basename result.file_path) result.file_content.length
        result.file_path chunk_ids
      if fails op2 then ([op1, op2], true)
      else
        let op3 := StorageOp.upsertFullDoc doc_id result.file_content
        if fails op3 then ([op1, op2, op3], true) else ([op1, op2, op3], false)
    else ([op1], false)
  else ([], false)

/-- Terminal state of the single `storage_worker` task: the backend-call
trace it issued and its final `stored_count`.  The task itself always returns
normally and sets `storage_done` — its outer `except Exception` handler
catches the re-raised storage error and `break`s, so no exception escapes. -/
structure StorageOutcome where
  ops : List StorageOp
  stored : Nat
deriving DecidableEq

/-- The `storage_worker` loop over the storage queue (`none` is the stop
sentinel): dequeues results in arrival order, runs `store_file_result` on
each, increments `stored_count` only when no error was raised, and on an
error breaks out of the loop (the error is logged and swallowed).  An
exhausted queue without sentinel models the worker still blocked on
`storage_queue.get()` — by then it has issued exactly these calls. -/
def storage_worker (fails : StorageOp → Bool)
    (compute_mdhash_id : String → String → String) :
    List (Option FileResult) → StorageOutcome
  | [] => { ops := [], stored := 0 }
  | none :: _ => { ops := [], stored := 0 }
  | some result :: rest =>
    let r := store_file_result fails compute_mdhash_id result
    if r.2 then { ops := r.1, stored := 0 }
    else
      let tail := storage_worker fails compute_mdhash_id rest
      { ops := r.1 ++ tail.ops, stored := tail.stored + 1 }

/-- Terminal state of one `processing_worker` task: the results it pushed
onto the storage queue, its final contribution to `processed_count`, and the
exception (if any) escaping the task.  Per the source, the inner handler
re-raises processing errors but the outer `except Exception` of the `while`
loop catches them and `break`s, so the escaping exception is always `none`:
a worker never propagates a processing failure to `asyncio.gather`. -/
structure WorkerOutcome where
  pushed : List FileResult
  processed : Nat
  escaped : Option ProcError
deriving DecidableEq

/-- The `processing_worker` loop over the work queue (`none` is the stop
sentinel): dequeues `(code_path, bytes)` items, runs `process_file`, pushes
the result to the storage queue and increments `processed_count`; on a
processing error the re-raise is caught by the loop's outer handler, which
logs and `break`s — the failed and all later queue items are abandoned and
no exception escapes. -/
def processing_worker (pf : String → List Nat → Except ProcError FileResult) :
    List (Option (String × List Nat)) → WorkerOutcome
  | [] => { pushed := [], processed := 0, escaped := none }
  | none :: _ => { pushed := [], processed := 0, escaped := none }
  | some (code_path, file_content_bytes) :: rest =>
    match pf code_path file_content_bytes with
    | .ok result =>
      let tail := processing_worker pf rest
      { pushed := result :: tail.pushed, processed := tail.processed + 1,
        escaped := tail.escaped }
    | .error _ => { pushed := [], processed := 0, escaped := none }

/-- Terminal observation of one `code_to_storage` run under the embedded
schedule.  `report processed stored success` is the run reaching the final
verification block (lines 377–383) with those counter values, `success`
mirroring its `processed_count == total_files and stored_count == total_files`
test; `hang processed` is the run blocked forever on
`await processing_done.wait()` because no worker's epilogue found
`processed_count == total_files`, so `processing_done` is never set. -/
inductive RunOutcome
  | report (processed stored : Nat) (success : Bool)
  | hang (processed : Nat)
deriving DecidableEq

/-- `code_to_storage(rag, code_dict)` under the sequential schedule with one
processing worker (`parallel_num = 1`, so the producer enqueues the files
followed by one `None` sentinel) and the storage worker draining its queue
afterwards.  After the worker finishes, `processing_done` is set iff
`processed_count == total_files`; only then does the driver push the storage
sentinel, await `storage_done`, and reach the final report; otherwise the
driver waits forever. -/
def code_to_storage (pf : String → List Nat → Except ProcError FileResult)
    (fails : StorageOp → Bool) (compute_mdhash_id : String → String → String)
    (code_dict : List (String × List Nat)) : RunOutcome :=
  let total_files := code_dict.length
  let work_queue := code_dict.map some ++ [none]
  let w := processing_worker pf work_queue
  if w.processed = total_files then
    let s := storage_worker fails compute_mdhash_id (w.pushed.map some ++ [none])
    .report w.processed s.stored
      (decide (w.processed = total_files ∧ s.stored = total_files))
  else
    .hang w.processed

/-- The trivial chunk selector (a file in which the selector finds nothing to
chunk); used to instantiate abstract collaborators at concrete inputs. -/
def chunker0 : List Nat → List (Node × String) := fun _ => []

/-- A graph extractor emitting nothing; used to instantiate abstract
collaborators at concrete inputs. -/
def grapher0 : Node → String → List Entity × List Relationship := fun _ _ => ([], [])

/-- A concrete stand-in for `compute_mdhash_id` at witness inputs. -/
def hash0 (content pre : String) : String := pre ++ content

/-- Modelled from the spec: events of the Rate Limiter (§4.6), whose module
`utils/rate_limiter.py` is not under `src/`: a counting admission gate with
scoped acquisition (`async with get_rate_limiter()`), released automatically
when the guarded call completes. -/
inductive GateEvent
  | acquire
  | call (request : List String)
  | release
deriving DecidableEq

/-- Modelled from the spec: one provider call guarded by the rate limiter —
the gate admits the caller, the guarded request runs exactly once (the
limiter never retries), and the slot is released on exit, success or
failure. -/
def gated_call (provider : List String → Except String (List (List Int)))
    (request : List String) : List GateEvent × Except String (List (List Int)) :=
  ([GateEvent.acquire, GateEvent.call request, GateEvent.release], provider request)

/-- The gate-event trace of a sequence of independently rate-limited provider
requests: each request sits inside its own acquire/release pair. -/
def gatedTriples (requests : List (List String)) : List GateEvent :=
  requests.flatMap (fun r => [GateEvent.acquire, GateEvent.call r, GateEvent.release])

/-- Outcome of `openai_embed`: the embeddings array, the `RuntimeError`
raised on terminal failure, or the `IndexError` the source hits at
`texts[0]` when called with an empty batch that fails.  Embedding vectors
are abstracted as `List Int` (their numeric content is opaque here). -/
inductive EmbedOutcome
  | ok (embeddings : List (List Int))
  | runtimeError (msg : String)
  | indexError
deriving DecidableEq

/-- The per-item fallback loop of `openai_embed` (`for text in texts` in the
batch-failure handler): each text is re-requested alone under its own rate
limiter slot; the first individual failure stops the loop with the failing
text and provider error, texts after it are not attempted.  Returns the
gate-event trace and either the collected embeddings or that failure. -/
def embed_individual (provider : List String → Except String (List (List Int))) :
    List String → List GateEvent × Except (String × String) (List (List Int))
  | [] => ([], .ok [])
  | t :: ts =>
    let g := gated_call provider [t]
    match g.2 with
    | .ok embs =>
      let tail := embed_individual provider ts
      (g.1 ++ tail.1, tail.2.map (fun rest => embs.headD [] :: rest))
    | .error msg => (g.1, .error (t, msg))

/-- The singleton requests the fallback loop actually issues: one per text in
order, up to and including the first individually failing text. -/
def individual_requests (provider : List String → Except String (List (List Int))) :
    List String → List (List String)
  | [] => []
  | t :: ts =>
    match provider [t] with
    | .ok _ => [t] :: individual_requests provider ts
    | .error _ => [[t]]

/-- The first text whose individual retry fails, with the provider's error. -/
def first_individual_failure
    (provider : List String → Except String (List (List Int))) :
    List String → Option (String × String)
  | [] => none
  | t :: ts =>
    match provider [t] with
    | .ok _ => first_individual_failure provider ts
    | .error m => some (t, m)

/-- `openai_embed(texts)` (`llm/openai_embedding.py`), with the remote
provider (`_openai_embedding_client.embeddings.create`, model name,
dimension flags) abstracted as `provider`, a deterministic map from the
request's `input` list to embeddings or an error.  Returns the gate-event
trace of all rate-limited calls and the outcome: the batch request runs
inside one limiter slot; on its failure with more than one text, each text
is retried individually (each again inside its own slot) until the first
individual failure, which raises `RuntimeError`; a failing single-text batch
raises `RuntimeError` at once (and an empty batch hits `texts[0]`). -/
def openai_embed (provider : List String → Except String (List (List Int)))
    (texts : List String) : List GateEvent × EmbedOutcome :=
  let g := gated_call provider texts
  match g.2 with
  | .ok embs => (g.1, .ok embs)
  | .error e =>
    if 1 < texts.length then
      let f := embed_individual provider texts
      (g.1 ++ f.1,
        match f.2 with
        | .ok embs => .ok embs
        | .error tm =>
          .runtimeError ("Failed to embed text: " ++ tm.1.take 50 ++ "... Error: " ++ tm.2))
    else
      match texts with
      | [] => (g.1, .indexError)
      | t :: _ =>
        (g.1, .runtimeError ("Failed to embed text: " ++ t.take 50 ++ "... Error: " ++ e))

/-- The embedding function cached by `_load_embedding_components`: the
HuggingFace closure over the loaded model/tokenizer, or `openai_embed`. -/
inductive EmbFunc
  | hfEmbed
  | openaiEmbed
deriving DecidableEq

/-- The module-level mutable state read and written by
`_load_embedding_components`: the function-attribute cache
(`_cached_embedding_func`) plus counters of how many
`AutoModel.from_pretrained` / `AutoTokenizer.from_pretrained` loads have been
performed. -/
structure InitState where
  cached : Option EmbFunc
  model_loads : Nat
  tokenizer_loads : Nat
deriving DecidableEq

/-- `_load_embedding_components()` (`initialization/initializer.py`) as a
state transformer.  The asyncio lock serializes the critical section on the
single-threaded event loop, so the whole call is embedded as one atomic
step: return the cached function if present (both the pre-lock fast path and
the double-check after acquiring the lock); otherwise load the provider's
components — model and tokenizer for `"huggingface"`, tokenizer only for
`"openai"` — cache the resulting embedding function and return it; an
unsupported provider raises `ValueError` and caches nothing. -/
def load_embedding_components (embedding_model_provider : String) (s : InitState) :
    Except String EmbFunc × InitState :=
  match s.cached with
  | some f => (.ok f, s)
  | none =>
    if embedding_model_provider = "huggingface" then
      (.ok .hfEmbed,
        { cached := some .hfEmbed, model_loads := s.model_loads + 1,
          tokenizer_loads := s.tokenizer_loads + 1 })
    else if embedding_model_provider = "openai" then
      (.ok .openaiEmbed,
        { cached := some .openaiEmbed, model_loads := s.model_loads,
          tokenizer_loads := s.tokenizer_loads + 1 })
    else
      (.error ("Unsupported embedding model provider: " ++ embedding_model_provider), s)

/-- Discriminator for `ainsert_custom_kg` calls in a storage trace. -/
def isIngestOp : StorageOp → Bool
  | .ingest .. => true
  | _ => false

/-- Discriminator for `doc_status.upsert` calls in a storage trace. -/
def isUpsertStatusOp : StorageOp → Bool
  | .upsertStatus .. => true
  | _ => false

/-- Discriminator for `full_docs.upsert` calls in a storage trace. -/
def isUpsertFullDocOp : StorageOp → Bool
  | .upsertFullDoc .. => true
  | _ => false

/-- A ten-file input whose fourth file is a single `0xFF` byte — not valid
UTF-8, so `process_file` raises a decode error on it. -/
def tenFilesOneBad : List (String × List Nat) :=
  [("f0.py", [104]), ("f1.py", [104]), ("f2.py", [104]),
   ("f3.py", [0xFF]), ("f4.py", [104]), ("f5.py", [104]),
   ("f6.py", [104]), ("f7.py", [104]), ("f8.py", [104]), ("f9.py", [104])]

/-- A single-file input map with a decodable body. -/
def oneGoodFile : List (String × List Nat) := [("a.py", [104])]

/-- A `FileResult` with no chunks, entities or relationships, as produced
for an empty or definition-free file. -/
def emptyResult : FileResult :=
  { file_path := "e.py", file_content := "", chunks := [], entities := [],
    relationships := [] }

/-- A `FileResult` carrying one chunk. -/
def oneChunkResult : FileResult :=
  { file_path := "a.py", file_content := "def f():\n    pass\n",
    chunks := [{ content := "def f():\n    pass", source_id := "file:a.py_line:1-2",
                 file_path := "a.py" }],
    entities := [], relationships := [] }

/-- A `FileResult` with relationships but no chunks. -/
def noChunkResult : FileResult :=
  { file_path := "r.py", file_content := "x = 1\n", chunks := [],
    entities := [],
    relationships := [{ src := "a", tgt := "b", kind := "contains",
                        source_id := "file:r.py_line:1-1", file_path := "r.py" }] }

/-- A provider that succeeds only on the singleton request `["a"]` and fails
on every other request, batches included. -/
def provider0 : List String → Except String (List (List Int)) :=
  fun request => if request = ["a"] then .ok [[1]] else .error "boom"

/-- A chunk selector returning a single one-byte node covering the file
head; used to instantiate abstract collaborators at concrete inputs. -/
def chunker1 : List Nat → List (Node × String) := fun _ => [(⟨0, 1⟩, "h")]

/-- The `FileResult` that `process_file chunker1 grapher0 "a.py" [104]`
produces. -/
def oneChunkProcessed : FileResult :=
  { file_path := "a.py", file_content := "h",
    chunks := [{ content := "h", source_id := "file:a.py_line:1-1",
                 file_path := "a.py" }],
    entities := [], relationships := [] }

/-- Discriminator for provider-call events in a gate trace. -/
def isCallEvent : GateEvent → Bool
  | .call _ => true
  | _ => false

/-! ## Theorems -/

/-- The chunk list assembled by the `for` loop of `process_file` is the
selected node list mapped through the chunk constructor. -/
theorem processChunks_fst (grapher : Node → String → List Entity × List Relationship)
    (file_name code_path : String) (offsets : List Nat) (l : List (Node × String)) :
    (processChunks grapher file_name code_path offsets l).1 =
      l.map (fun nt =>
        { content := nt.2,
          source_id := "file:" ++ file_name ++ "_line:" ++
            toString (get_node_line_range nt.1 offsets).1 ++ "-" ++
            toString (get_node_line_range nt.1 offsets).2,
          file_path := code_path }) := by
  induction l with
  | nil => rfl
  | cons nt rest ih =>
    obtain ⟨node, node_text⟩ := nt
    simp only [processChunks, List.map_cons]
    exact congrArg _ ih

/-- C6: `process_file` fails with a decode error exactly on byte sequences
that are not valid UTF-8, and the error is propagated to its caller; on
valid UTF-8 input no decode error occurs and the decoded text is carried in
the returned `FileResult`. -/
theorem claim_C6_decode_error_propagation
    (chunker : List Nat → List (Node × String))
    (grapher : Node → String → List Entity × List Relationship)
    (code_path : String) (bytes : List Nat) :
    (utf8Decode bytes = none →
      process_file chunker grapher code_path bytes = .error .decodeError)
  ∧ (∀ t, utf8Decode bytes = some t →
      ∃ r, process_file chunker grapher code_path bytes = .ok r ∧
        r.file_content = t) := by
  constructor
  · intro hnone
    simp only [process_file, hnone]
  · intro t hsome
    simp only [process_file, hsome]
    exact ⟨_, rfl, rfl⟩

/-- Witness for C6 at concrete inputs: the single byte `0xFF` is not valid
UTF-8 and makes `process_file` raise a decode error, while the bytes
`[104, 105]` decode to `"hi"`, which ends up in the result's
`file_content`. -/
theorem claim_C6_witness :
    process_file chunker0 grapher0 "b.bin" [0xFF] = .error .decodeError
  ∧ ∃ r, process_file chunker0 grapher0 "a.py" [104, 105] = .ok r ∧
      r.file_content = "hi" :=
  ⟨(claim_C6_decode_error_propagation chunker0 grapher0 "b.bin" [0xFF]).1 rfl,
   (claim_C6_decode_error_propagation chunker0 grapher0 "a.py" [104, 105]).2 "hi" rfl⟩

/-- C7: a file whose processing yields zero chunks (and hence zero entities
and relationships) still returns a normal aggregate `FileResult` carrying
the file path, the decoded content and empty lists — no error is raised. -/
theorem claim_C7_empty_result_is_ok
    (chunker : List Nat → List (Node × String))
    (grapher : Node → String → List Entity × List Relationship)
    (code_path : String) (bytes : List Nat) (t : String)
    (hdec : utf8Decode bytes = some t) (hsel : chunker bytes = []) :
    process_file chunker grapher code_path bytes =
      .ok { file_path := code_path, file_content := t, chunks := [],
            entities := [], relationships := [] } := by
  simp only [process_file, hdec, hsel, processChunks]

/-- Witness for C7: the empty file decodes to `""`, the selector finds
nothing to chunk, and `process_file` returns the empty aggregate result. -/
theorem claim_C7_witness :
    process_file chunker0 grapher0 "e.py" [] =
      .ok { file_path := "e.py", file_content := "", chunks := [],
            entities := [], relationships := [] } :=
  claim_C7_empty_result_is_ok chunker0 grapher0 "e.py" [] "" rfl rfl

/-- C4: every chunk of a `process_file` result is built from the selected
`(node, text)` pairs in order, with `source_id` exactly
`file:<basename>_line:<start>-<end>`, the 1-based line range coming from the
line-offset index; the whole mapping is a deterministic function of the
inputs. -/
theorem claim_C4_source_id_format
    (chunker : List Nat → List (Node × String))
    (grapher : Node → String → List Entity × List Relationship)
    (code_path : String) (bytes : List Nat) (r : FileResult)
    (h : process_file chunker grapher code_path bytes = .ok r) :
    r.chunks = (chunker bytes).map (fun nt =>
      { content := nt.2,
        source_id := "file:" ++ basename code_path ++ "_line:" ++
          toString (get_node_line_range nt.1 (build_line_offset_list bytes)).1 ++ "-" ++
          toString (get_node_line_range nt.1 (build_line_offset_list bytes)).2,
        file_path := code_path }) := by
  unfold process_file at h
  cases hu : utf8Decode bytes with
  | none => rw [hu] at h; cases h
  | some t =>
    rw [hu] at h
    cases h
    exact processChunks_fst grapher (basename code_path) code_path
      (build_line_offset_list bytes) (chunker bytes)

/-- Witness for C4: for a one-byte file `"a.py"` whose selector returns a
single node spanning byte 0, the produced chunk's `source_id` is
`file:a.py_line:1-1`. -/
theorem claim_C4_witness :
    oneChunkProcessed.chunks = (chunker1 [104]).map (fun nt =>
      { content := nt.2,
        source_id := "file:" ++ basename "a.py" ++ "_line:" ++
          toString (get_node_line_range nt.1 (build_line_offset_list [104])).1 ++ "-" ++
          toString (get_node_line_range nt.1 (build_line_offset_list [104])).2,
        file_path := "a.py" }) :=
  claim_C4_source_id_format chunker1 grapher0 "a.py" [104] oneChunkProcessed (by decide)

/-- C1 (code defect): with one undecodable file among ten, the embedded run
never cancels the other roles and never surfaces the worker's error.  The
worker's outer `except Exception` handler swallows the re-raised processing
error (`escaped = none`), only the three files dequeued before the failure
were processed and pushed onto the storage queue, and since the final
`processed_count` (3) never reaches `total_files` (10), no worker epilogue
sets `processing_done`, so the driver blocks forever at
`await processing_done.wait()`: the cancel-everything-and-surface branch of
`code_to_storage` is unreachable for worker failures. -/
theorem claim_C1_worker_error_swallowed_run_hangs :
    code_to_storage (process_file chunker0 grapher0) (fun _ => false) hash0
      tenFilesOneBad = .hang 3
  ∧ (processing_worker (process_file chunker0 grapher0)
      (tenFilesOneBad.map some ++ [none])).escaped = none
  ∧ (processing_worker (process_file chunker0 grapher0)
      (tenFilesOneBad.map some ++ [none])).pushed.length = 3 :=
  ⟨by decide, by decide, by decide⟩

/-- C2: whenever a run reaches the final verification block, it is reported
successful exactly when `processed_count` and `stored_count` both equal
`total_files`; the complementary terminal report (reached with no exception
pending) is the partial-completion warning. -/
theorem claim_C2_success_iff_all_counted
    (pf : String → List Nat → Except ProcError FileResult)
    (fails : StorageOp → Bool) (h : String → String → String)
    (code_dict : List (String × List Nat)) (p s : Nat) (success : Bool)
    (hrun : code_to_storage pf fails h code_dict = .report p s success) :
    success = true ↔ (p = code_dict.length ∧ s = code_dict.length) := by
  simp only [code_to_storage] at hrun
  split at hrun
  · simp only [RunOutcome.report.injEq] at hrun
    obtain ⟨hp, hs, hb⟩ := hrun
    subst hp; subst hs; subst hb
    simp only [decide_eq_true_eq]
  · cases hrun

/-- Witness for C2: a one-file run that stores its file reports success, and
the theorem instantiates to `1 = 1 ∧ 1 = 1`. -/
theorem claim_C2_witness :
    true = true ↔ (1 = oneGoodFile.length ∧ 1 = oneGoodFile.length) :=
  claim_C2_success_iff_all_counted (process_file chunker0 grapher0)
    (fun _ => false) hash0 oneGoodFile 1 1 true (by decide)

/-- When no storage call fails, the sink drains its queue in arrival order,
issuing exactly each result's storage calls, in order, and counting every
dequeued result as stored. -/
theorem storage_worker_no_failure (fails : StorageOp → Bool)
    (h : String → String → String) (rs : List FileResult)
    (hok : ∀ r ∈ rs, (store_file_result fails h r).2 = false) :
    storage_worker fails h (rs.map some ++ [none]) =
      { ops := (rs.map (fun r => (store_file_result fails h r).1)).flatten,
        stored := rs.length } := by
  induction rs with
  | nil => rfl
  | cons r rest ih =>
    have hr := hok r (List.mem_cons_self r rest)
    have ih' := ih (fun x hx => hok x (List.mem_cons_of_mem r hx))
    simp only [List.map_cons, List.cons_append, storage_worker, hr, Bool.false_eq_true,
      if_false, List.flatten_cons, List.length_cons, List.append_eq, ih']

/-- Every storage call issued by `store_file_result` is one of the three
calls of that result: its ingest, its status upsert, its full-document
upsert. -/
theorem store_file_result_ops_cases (fails : StorageOp → Bool)
    (h : String → String → String) (r : FileResult) :
    ∀ op ∈ (store_file_result fails h r).1,
      op = .ingest r.chunks r.entities r.relationships (h r.file_content "doc-")
    ∨ op = .upsertStatus (h r.file_content "doc-") r.chunks.length r.file_content
        ("Code file: " ++ basename r.file_path) r.file_content.length r.file_path
        (r.chunks.map fun c => h c.content "chunk-")
    ∨ op = .upsertFullDoc (h r.file_content "doc-") r.file_content := by
  intro op hop
  simp only [store_file_result] at hop
  split at hop
  · split at hop
    · simp at hop; tauto
    · split at hop
      · split at hop
        · simp at hop; tauto
        · split at hop
          · simp at hop; tauto
          · simp at hop; tauto
      · simp at hop; tauto
  · simp at hop

/-- A result with no chunks triggers neither the document-status upsert nor
the full-document upsert. -/
theorem store_no_chunks_no_doc_writes (fails : StorageOp → Bool)
    (h : String → String → String) (r : FileResult) (hc : r.chunks = []) :
    (store_file_result fails h r).1.filter isUpsertStatusOp = []
  ∧ (store_file_result fails h r).1.filter isUpsertFullDocOp = [] := by
  by_cases hcond : r.chunks ≠ [] ∨ r.entities ≠ [] ∨ r.relationships ≠ []
  · have hch : ¬r.chunks ≠ [] := by simp [hc]
    cases hf1 : fails (.ingest r.chunks r.entities r.relationships (h r.file_content "doc-")) <;>
      simp [store_file_result, if_pos hcond, hf1, if_neg hch, isUpsertStatusOp,
        isUpsertFullDocOp]
  · simp [store_file_result, if_neg hcond]

/-- Counterexample to C3 as stated: the sink dequeues the empty
`FileResult`, issues no ingest call and no status update, yet counts it as
stored; and a storage error does not abort the run with a surfaced error —
the sink swallows it and the pipeline terminates with the
partial-completion report (`stored_count = 0`, `success = false`). -/
theorem claim_C3_counterexample :
    storage_worker (fun _ => false) hash0 [some emptyResult, none] =
      { ops := [], stored := 1 }
  ∧ code_to_storage (process_file chunker1 grapher0) (fun _ => true) hash0
      oneGoodFile = .report 1 0 false :=
  ⟨by decide, by decide⟩

/-- C3 (amended): the single sequential storage consumer dequeues
`FileResult`s in arrival order; when no storage call fails it issues exactly
the concatenation, in arrival order, of each result's storage calls —
results with no chunks, entities and relationships contribute none — and
counts every dequeued result as stored; every result with at least one
chunk, entity or relationship gets the ingest call, issued first; a failing
storage call stops the sink at that result (nothing later is stored), the
error being caught and logged rather than propagated. -/
theorem claim_C3_storage_sink (fails : StorageOp → Bool)
    (h : String → String → String) :
    (∀ rs : List FileResult, (∀ r ∈ rs, (store_file_result fails h r).2 = false) →
       storage_worker fails h (rs.map some ++ [none]) =
         { ops := (rs.map (fun r => (store_file_result fails h r).1)).flatten,
           stored := rs.length })
  ∧ (∀ r : FileResult, r.chunks ≠ [] ∨ r.entities ≠ [] ∨ r.relationships ≠ [] →
       ∃ restOps, (store_file_result fails h r).1 =
         .ingest r.chunks r.entities r.relationships (h r.file_content "doc-") :: restOps)
  ∧ (∀ (r : FileResult) (rest : List (Option FileResult)),
       (store_file_result fails h r).2 = true →
       storage_worker fails h (some r :: rest) =
         { ops := (store_file_result fails h r).1, stored := 0 }) := by
  refine ⟨storage_worker_no_failure fails h, ?_, ?_⟩
  · intro r hne
    simp only [store_file_result, if_pos hne]
    split
    · exact ⟨[], rfl⟩
    · split
      · split
        · exact ⟨_, rfl⟩
        · split
          · exact ⟨_, rfl⟩
          · exact ⟨_, rfl⟩
      · exact ⟨[], rfl⟩
  · intro r rest htrue
    simp only [storage_worker, htrue, if_true]

/-- Witness for C3 (amended) at concrete inputs: a two-result queue with no
failures stores both results in order; the one-chunk result's calls start
with its ingest; a failing first store leaves the second result unstored. -/
theorem claim_C3_witness :
    storage_worker (fun _ => false) hash0
        ([oneChunkResult, emptyResult].map some ++ [none]) =
      { ops := ([oneChunkResult, emptyResult].map
          (fun r => (store_file_result (fun _ => false) hash0 r).1)).flatten,
        stored := 2 }
  ∧ (∃ restOps, (store_file_result (fun _ => false) hash0 oneChunkResult).1 =
      .ingest oneChunkResult.chunks oneChunkResult.entities
        oneChunkResult.relationships
        (hash0 oneChunkResult.file_content "doc-") :: restOps)
  ∧ storage_worker (fun _ => true) hash0 [some oneChunkResult, some emptyResult] =
      { ops := (store_file_result (fun _ => true) hash0 oneChunkResult).1,
        stored := 0 } :=
  ⟨(claim_C3_storage_sink (fun _ => false) hash0).1 [oneChunkResult, emptyResult]
      (by decide),
   (claim_C3_storage_sink (fun _ => false) hash0).2.1 oneChunkResult (by decide),
   (claim_C3_storage_sink (fun _ => true) hash0).2.2 oneChunkResult
      [some emptyResult] (by decide)⟩

/-- C5: the document id written by `store_file_result` is the content hash
of the full decoded file text and nothing else; the chunk-id list written to
the document status is the content hash of each chunk's text; and two
results obtained from `process_file` on the same bytes are equal, so
re-ingesting an unchanged file issues identical ids (and identical calls
altogether). -/
theorem claim_C5_ids_are_content_hashes
    (h : String → String → String) (fails : StorageOp → Bool)
    (chunker : List Nat → List (Node × String))
    (grapher : Node → String → List Entity × List Relationship)
    (code_path : String) (bytes : List Nat) (r r' : FileResult)
    (hr : process_file chunker grapher code_path bytes = .ok r)
    (hr' : process_file chunker grapher code_path bytes = .ok r') :
    (∀ cs es rels d,
       StorageOp.ingest cs es rels d ∈ (store_file_result fails h r).1 →
       d = h r.file_content "doc-")
  ∧ (∀ d n c csum clen fp ids,
       StorageOp.upsertStatus d n c csum clen fp ids ∈ (store_file_result fails h r).1 →
       d = h r.file_content "doc-" ∧
         ids = r.chunks.map (fun ch => h ch.content "chunk-"))
  ∧ (∀ d c, StorageOp.upsertFullDoc d c ∈ (store_file_result fails h r).1 →
       d = h r.file_content "doc-")
  ∧ r' = r
  ∧ store_file_result fails h r' = store_file_result fails h r := by
  have heq : r' = r := by
    rw [hr] at hr'
    exact (Except.ok.inj hr').symm
  refine ⟨?_, ?_, ?_, heq, by rw [heq]⟩
  · intro cs es rels d hop
    rcases store_file_result_ops_cases fails h r _ hop with h1 | h1 | h1
    · injection h1 with e1 e2 e3 e4
    · simp at h1
    · simp at h1
  · intro d n c csum clen fp ids hop
    rcases store_file_result_ops_cases fails h r _ hop with h1 | h1 | h1
    · simp at h1
    · injection h1 with e1 e2 e3 e4 e5 e6 e7
      exact ⟨e1, e7⟩
    · simp at h1
  · intro d c hop
    rcases store_file_result_ops_cases fails h r _ hop with h1 | h1 | h1
    · simp at h1
    · simp at h1
    · injection h1 with e1 e2

/-- Witness for C5: for the one-chunk file processed from `[104]` with the
concrete hash, the ingested document id evaluates to the hash of the decoded
content. -/
theorem claim_C5_witness :
    ("doc-h" : String) = hash0 oneChunkProcessed.file_content "doc-" :=
  (claim_C5_ids_are_content_hashes hash0 (fun _ => false) chunker1 grapher0
      "a.py" [104] oneChunkProcessed oneChunkProcessed (by decide) (by decide)).1
    oneChunkProcessed.chunks oneChunkProcessed.entities
    oneChunkProcessed.relationships "doc-h" (by decide)

/-- C9: the frame of `store_file_result`: an all-empty result issues no
storage call at all and raises nothing; a result with no chunks but some
entities or relationships issues exactly the ingest call and neither
document-status nor full-document write; those two writes only ever happen
for results with chunks; and the sink counts any result whose store raised
nothing — the empty ones included — towards `stored_count`. -/
theorem claim_C9_store_frame (fails : StorageOp → Bool)
    (h : String → String → String) (r : FileResult)
    (rest : List (Option FileResult)) :
    (r.chunks = [] ∧ r.entities = [] ∧ r.relationships = [] →
       store_file_result fails h r = ([], false))
  ∧ (r.chunks = [] → r.entities ≠ [] ∨ r.relationships ≠ [] →
       (store_file_result fails h r).1.filter isIngestOp =
         [.ingest r.chunks r.entities r.relationships (h r.file_content "doc-")]
       ∧ (store_file_result fails h r).1.filter isUpsertStatusOp = []
       ∧ (store_file_result fails h r).1.filter isUpsertFullDocOp = [])
  ∧ (∀ op ∈ (store_file_result fails h r).1,
       isUpsertStatusOp op = true ∨ isUpsertFullDocOp op = true → r.chunks ≠ [])
  ∧ ((store_file_result fails h r).2 = false →
       (storage_worker fails h (some r :: rest)).stored =
         (storage_worker fails h rest).stored + 1) := by
  refine ⟨?_, ?_, ?_, ?_⟩
  · rintro ⟨h1, h2, h3⟩
    unfold store_file_result
    rw [if_neg (by simp [h1, h2, h3])]
  · intro hc hne
    have hcond : r.chunks ≠ [] ∨ r.entities ≠ [] ∨ r.relationships ≠ [] :=
      Or.inr hne
    have hch : ¬r.chunks ≠ [] := by simp [hc]
    cases hf1 : fails (.ingest r.chunks r.entities r.relationships (h r.file_content "doc-")) <;>
      simp [store_file_result, if_pos hcond, hf1, if_neg hch, isIngestOp,
        isUpsertStatusOp, isUpsertFullDocOp]
  · intro op hop hkind hc
    rcases hkind with hk | hk
    · have := (store_no_chunks_no_doc_writes fails h r hc).1
      have : op ∈ (store_file_result fails h r).1.filter isUpsertStatusOp :=
        List.mem_filter.mpr ⟨hop, hk⟩
      simp_all
    · have := (store_no_chunks_no_doc_writes fails h r hc).2
      have : op ∈ (store_file_result fails h r).1.filter isUpsertFullDocOp :=
        List.mem_filter.mpr ⟨hop, hk⟩
      simp_all
  · intro hfalse
    simp only [storage_worker, hfalse, Bool.false_eq_true, if_false]

/-- Witness for C9 at concrete results: the empty result issues no call and
no error; the chunkless result with a relationship gets exactly an ingest
and no status write; the empty result is still counted as stored. -/
theorem claim_C9_witness :
    store_file_result (fun _ => false) hash0 emptyResult = ([], false)
  ∧ (store_file_result (fun _ => false) hash0 noChunkResult).1.filter
      isUpsertStatusOp = []
  ∧ (storage_worker (fun _ => false) hash0 [some emptyResult]).stored =
      (storage_worker (fun _ => false) hash0 []).stored + 1 :=
  ⟨(claim_C9_store_frame (fun _ => false) hash0 emptyResult []).1
      (by exact ⟨rfl, rfl, rfl⟩),
   ((claim_C9_store_frame (fun _ => false) hash0 noChunkResult []).2.1 rfl
      (by simp [noChunkResult])).2.1,
   (claim_C9_store_frame (fun _ => false) hash0 emptyResult []).2.2.2 (by decide)⟩

/-- The fallback loop's gate trace is exactly the rate-limited singleton
requests it issues, one acquire/release pair per request. -/
theorem embed_individual_trace
    (provider : List String → Except String (List (List Int)))
    (ts : List String) :
    (embed_individual provider ts).1 =
      gatedTriples (individual_requests provider ts) := by
  induction ts with
  | nil => rfl
  | cons t ts ih =>
    simp only [embed_individual, individual_requests, gated_call]
    cases hp : provider [t] with
    | ok embs => simp [gatedTriples, ih]
    | error m => simp [gatedTriples]

/-- The fallback loop raises exactly the first individual failure. -/
theorem embed_individual_error_iff
    (provider : List String → Except String (List (List Int)))
    (ts : List String) (tm : String × String) :
    (embed_individual provider ts).2 = .error tm ↔
      first_individual_failure provider ts = some tm := by
  induction ts with
  | nil => simp [embed_individual, first_individual_failure]
  | cons t ts ih =>
    simp only [embed_individual, first_individual_failure, gated_call]
    cases hp : provider [t] with
    | ok embs =>
      cases he : (embed_individual provider ts).2 with
      | ok v =>
        rw [he] at ih
        simp [Except.map, ← ih]
      | error em =>
        rw [he] at ih
        simp [Except.map, ← ih]
    | error m => simp

/-- C8 (amended): when the rate-limited batch embedding call fails with more
than one text, `openai_embed` retries the texts individually and in order,
each retry inside its own rate-limiter slot, stopping at the first
individually failing text, and it surfaces a terminal `RuntimeError` exactly
when some retried text fails; a failing single-text batch surfaces the
terminal error immediately with no retry; and the limiter itself never
retries — every admitted request is called exactly once per acquisition. -/
theorem claim_C8_batch_fallback
    (provider : List String → Except String (List (List Int)))
    (texts : List String) (e : String)
    (hb : provider texts = .error e) :
    (1 < texts.length →
       (openai_embed provider texts).1 =
         gatedTriples (texts :: individual_requests provider texts))
  ∧ (1 < texts.length →
       ((∃ m, (openai_embed provider texts).2 = .runtimeError m) ↔
          (first_individual_failure provider texts).isSome))
  ∧ (∀ t, texts = [t] →
       openai_embed provider texts =
         ([.acquire, .call [t], .release],
          .runtimeError ("Failed to embed text: " ++ t.take 50 ++ "... Error: " ++ e)))
  ∧ (∀ requests, (gatedTriples requests).filter isCallEvent =
       requests.map GateEvent.call) := by
  refine ⟨?_, ?_, ?_, ?_⟩
  · intro hlen
    simp only [openai_embed, gated_call, hb, if_pos hlen]
    rw [embed_individual_trace]
    simp [gatedTriples]
  · intro hlen
    simp only [openai_embed, gated_call, hb, if_pos hlen]
    cases he : (embed_individual provider texts).2 with
    | ok v =>
      constructor
      · rintro ⟨m, hm⟩; simp at hm
      · intro hsome
        obtain ⟨tm, htm⟩ := Option.isSome_iff_exists.mp hsome
        have hcontra := (embed_individual_error_iff provider texts tm).mpr htm
        rw [he] at hcontra
        cases hcontra
    | error tm =>
      have hfail := (embed_individual_error_iff provider texts tm).mp he
      constructor
      · intro _; exact Option.isSome_iff_exists.mpr ⟨tm, hfail⟩
      · intro _; exact ⟨_, rfl⟩
  · intro t ht
    subst ht
    simp [openai_embed, gated_call, hb]
  · intro requests
    induction requests with
    | nil => rfl
    | cons q qs ih =>
      simp only [gatedTriples] at ih ⊢
      rw [List.flatMap_cons, List.filter_append, ih]
      rfl

/-- Witness for C8 (amended) at the concrete provider that accepts only the
singleton `["a"]`: the batch `["a", "b"]` fails, both texts are retried in
their own limiter slots, and the failure of `"b"` surfaces as the terminal
error; the failing single-text batch `["b"]` errors at once. -/
theorem claim_C8_witness :
    (openai_embed provider0 ["a", "b"]).1 =
      gatedTriples (["a", "b"] :: individual_requests provider0 ["a", "b"])
  ∧ ((∃ m, (openai_embed provider0 ["a", "b"]).2 = .runtimeError m) ↔
      (first_individual_failure provider0 ["a", "b"]).isSome)
  ∧ openai_embed provider0 ["b"] =
      ([.acquire, .call ["b"], .release],
       .runtimeError ("Failed to embed text: " ++ "b".take 50 ++ "... Error: " ++ "boom")) :=
  ⟨(claim_C8_batch_fallback provider0 ["a", "b"] "boom" (by decide)).1 (by decide),
   (claim_C8_batch_fallback provider0 ["a", "b"] "boom" (by decide)).2.1 (by decide),
   (claim_C8_batch_fallback provider0 ["b"] "boom" (by decide)).2.2.1 "b" rfl⟩

set_option maxRecDepth 4096 in
/-- Counterexample to C8 as stated: on the batch `["a", "b", "c"]` whose
batch call fails, a terminal error is surfaced although the text `"c"` is
never retried individually — the fallback loop stops at the first individual
failure (`"b"`), so not every text is retried before the terminal error. -/
theorem claim_C8_counterexample :
    (∃ m, (openai_embed provider0 ["a", "b", "c"]).2 = .runtimeError m)
  ∧ GateEvent.call ["c"] ∉ (openai_embed provider0 ["a", "b", "c"]).1 :=
  ⟨⟨"Failed to embed text: " ++ "b".take 50 ++ "... Error: " ++ "boom", by decide⟩,
   by decide⟩

/-- C10: the embedding components are initialized at most once: a call that
finds the cache filled returns the cached embedding function and performs no
load; and after any call that returns successfully, every further call
returns the identical function and leaves the state — load counters
included — untouched. -/
theorem claim_C10_embedding_init_once (embedding_model_provider : String)
    (s : InitState) :
    (∀ f, s.cached = some f →
       load_embedding_components embedding_model_provider s = (.ok f, s))
  ∧ (∀ f s1, load_embedding_components embedding_model_provider s = (.ok f, s1) →
       load_embedding_components embedding_model_provider s1 = (.ok f, s1)) := by
  constructor
  · intro f hf
    simp [load_embedding_components, hf]
  · intro f s1 h1
    unfold load_embedding_components at h1 ⊢
    cases hc : s.cached with
    | some g =>
      rw [hc] at h1
      obtain ⟨he, hs⟩ := Prod.ext_iff.mp h1
      obtain rfl := Except.ok.inj he
      subst hs
      rw [hc]
    | none =>
      rw [hc] at h1
      by_cases hhf : embedding_model_provider = "huggingface"
      · rw [if_pos hhf] at h1
        obtain ⟨he, hs⟩ := Prod.ext_iff.mp h1
        obtain rfl := Except.ok.inj he
        subst hs
        rfl
      · rw [if_neg hhf] at h1
        by_cases hoa : embedding_model_provider = "openai"
        · rw [if_pos hoa] at h1
          obtain ⟨he, hs⟩ := Prod.ext_iff.mp h1
          obtain rfl := Except.ok.inj he
          subst hs
          rfl
        · rw [if_neg hoa] at h1
          obtain ⟨he, _⟩ := Prod.ext_iff.mp h1
          cases he

/-- Witness for C10: starting from the empty state with the `"openai"`
provider, the first call caches the OpenAI embedding function after one
tokenizer load, and the second call returns it unchanged with no further
load. -/
theorem claim_C10_witness :
    load_embedding_components "openai" ⟨some .openaiEmbed, 0, 1⟩ =
      (.ok .openaiEmbed, ⟨some .openaiEmbed, 0, 1⟩) :=
  (claim_C10_embedding_init_once "openai" ⟨none, 0, 0⟩).2 .openaiEmbed
    ⟨some .openaiEmbed, 0, 1⟩ (by decide)

end LightRAGCoder
